import Mathlib

/-!
Shallow embedding of the invitation-code / RSVP logic of the dududrilla
wedding site (src/script.js: window.RSVPModule and window.InvitationCodes;
src/js/admin-dashboard.js: updateCode), together with proofs about the
claims of the specification.

Modelling conventions:
* The Firestore store is a pair of lists (invitationCodes, rsvps).
* Document fields that may be absent are `Option` values; the JavaScript
  falsy-default idiom `x || d` is `jsOrInt`.
* Asynchronous store operations that may fail are driven by explicit
  Boolean oracles (`qOk`, `checkOk`, `commitOk`, ...): `true` means the
  store operation succeeds, `false` that it is rejected.  A rejected
  operation lands in the JavaScript `catch` block of the corresponding
  source function, which is modelled inline.
* Thrown JavaScript errors are the constructors of `Err`; each
  constructor carries in its doc comment the exact message thrown by the
  source, because two `catch` blocks in the source dispatch on message
  contents.
* `fetchCodeData` / `validateCode` / `validateCodeForAccess` also return
  the number of Firestore queries issued, so that "never reaches the
  store" is a provable statement.
-/

/-- JavaScript `parseInt(s, 10)`: skip leading whitespace, optional sign,
then the longest digit prefix; `none` models `NaN` (no digit found). -/
def jsReadDigits : List Char → Nat → Nat
  | [], acc => acc
  | c :: cs, acc =>
    if c.isDigit then jsReadDigits cs (acc * 10 + (c.toNat - 48)) else acc

/-- Longest digit prefix of a character list, `none` when the list does not
start with a digit (JavaScript parseInt yields NaN there). -/
def jsReadNat : List Char → Option Nat
  | [] => none
  | c :: cs => if c.isDigit then some (jsReadDigits (c :: cs) 0) else none

/-- JavaScript `parseInt(s, 10)` on a decimal string; `none` models `NaN`. -/
def jsParseInt (s : String) : Option Int :=
  match s.data.dropWhile Char.isWhitespace with
  | '-' :: rest => (jsReadNat rest).map (fun n => -(n : Int))
  | '+' :: rest => (jsReadNat rest).map (fun n => (n : Int))
  | rest => (jsReadNat rest).map (fun n => (n : Int))

/-- JavaScript `s.trim()`: drop whitespace from both ends.  Written over
the character list so that concrete runs reduce inside the kernel. -/
def jsTrim (s : String) : String :=
  ⟨((s.data.dropWhile Char.isWhitespace).reverse.dropWhile
      Char.isWhitespace).reverse⟩

/-- JavaScript `s.toUpperCase()` (ASCII range, which is all the site's
codes use). -/
def jsToUpper (s : String) : String :=
  ⟨s.data.map Char.toUpper⟩

/-- JavaScript `x || d` on an optionally-present number `x`: a missing
field, `NaN` (modelled by `none`) and `0` are falsy and give the default
`d`; any other number is returned unchanged. -/
def jsOrInt (x : Option Int) (d : Int) : Int :=
  match x with
  | none => d
  | some n => if n = 0 then d else n

/-- Normalization `code.trim().toUpperCase()` as done by `fetchCodeData` and
`checkExistingRSVP` in src/script.js. -/
def normalizeCode (s : String) : String :=
  jsToUpper (jsTrim s)

/-- The JavaScript `Error` values thrown by the modelled functions.  Each
constructor stands for one distinct message string of the source. -/
inductive Err : Type where
  /-- "Firebase no esta inicializado." (store client not initialised) -/
  | firebaseNotInit : Err
  /-- "Por favor, introduce un codigo de invitacion valido." -/
  | emptyInput : Err
  /-- "El codigo de invitacion no es valido." -/
  | notFound : Err
  /-- "Este codigo de invitacion ya no esta activo." -/
  | inactive : Err
  /-- "Este codigo de invitacion ya ha alcanzado el maximo de invitados permitidos." -/
  | exhausted : Err
  /-- "Error al validar el codigo. Por favor, intentalo de nuevo."
  (catch-all of fetchCodeData for a rejected Firestore query) -/
  | validationFailed : Err
  /-- "No hay un codigo de invitacion valido. ..." -/
  | noActiveCode : Err
  /-- "Por favor, introduce tu nombre completo." -/
  | nameRequired : Err
  /-- "Por favor, introduce tu email." -/
  | emailRequired : Err
  /-- "Por favor, indica si asistiras." -/
  | attendanceRequired : Err
  /-- "Ya has enviado tu confirmacion anteriormente. No puedes enviar otra vez." -/
  | duplicateSubmission : Err
  /-- "El numero de invitados excede la capacidad permitida. ..." -/
  | capacityExceeded : Err
  /-- "Error al enviar tu confirmacion. Por favor, intentalo de nuevo."
  (catch-all of submitRSVP for a rejected batch commit) -/
  | submissionFailed : Err
  /-- "Error al eliminar la confirmacion." (catch-all of deleteRSVP) -/
  | deleteFailed : Err
  /-- "No hay campos validos para actualizar." -/
  | noValidFields : Err
  /-- "Error al actualizar el codigo de invitacion." (catch-all of updateCode) -/
  | updateFailed : Err
  deriving Repr, DecidableEq

/-- A raw document of the `invitationCodes` collection.  `maxGuests`,
`usedGuests` and `updatedAt` may be absent from a stored document, hence
`Option`. -/
structure CodeDoc : Type where
  id : String
  code : String
  assignedTo : String
  maxGuests : Option Int
  usedGuests : Option Int
  isActive : Bool
  updatedAt : Option Nat
  deriving Repr, DecidableEq

/-- A raw document of the `rsvps` collection. -/
structure RsvpDoc : Type where
  id : String
  code : String
  codeId : String
  name : String
  guestsCount : Int
  email : String
  phone : String
  attendance : String
  allergies : String
  deriving Repr, DecidableEq

/-- The Firestore state: the two collections used by the site. -/
structure Store : Type where
  codes : List CodeDoc
  rsvps : List RsvpDoc
  deriving Repr, DecidableEq

/-- The immutable snapshot returned by `fetchCodeData` on success
(src/script.js lines 1306-1314). -/
structure CodeSnapshot : Type where
  id : String
  code : String
  assignedTo : String
  maxGuests : Int
  usedGuests : Int
  remainingGuests : Int
  isActive : Bool
  deriving Repr, DecidableEq

/-- The form data read from the RSVP form.  `guestsCount` is the raw
string of the input control, parsed with `parseInt` by `submitRSVP`. -/
structure FormData : Type where
  name : String
  email : String
  attendance : String
  guestsCount : String
  phone : String
  allergies : String
  deriving Repr, DecidableEq

/-- Query `db.collection(c).where(field, eq, v).limit(1)` on the codes
collection: the first document whose `code` field equals the key. -/
def findByCode (codes : List CodeDoc) (key : String) : Option CodeDoc :=
  codes.find? (fun d => d.code = key)

/-- First rsvp document whose `code` field equals the key. -/
def findRsvpByCode (rsvps : List RsvpDoc) (key : String) : Option RsvpDoc :=
  rsvps.find? (fun r => r.code = key)

/-- Effect of `firebase.firestore.FieldValue.increment d` applied to an optionally
present numeric field: a missing field is set to `d`, a present one is
incremented atomically. -/
def fvIncrement (x : Option Int) (d : Int) : Option Int :=
  match x with
  | none => some d
  | some n => some (n + d)

/-- Apply an atomic `usedGuests` increment of `d` to the code document
with the given id, leaving every other document untouched. -/
def applyIncrement (codes : List CodeDoc) (codeId : String) (d : Int) :
    List CodeDoc :=
  codes.map (fun c =>
    if c.id = codeId then { c with usedGuests := fvIncrement c.usedGuests d }
    else c)

/-- Snapshot construction of `fetchCodeData` (src/script.js 1303-1314):
`usedGuests = codeData.usedGuests || 0`, `maxGuests = codeData.maxGuests
|| 1`, `remainingGuests = Math.max(0, maxGuests - usedGuests)`. -/
def mkSnapshot (d : CodeDoc) : CodeSnapshot :=
  let usedGuests := jsOrInt d.usedGuests 0
  let maxGuests := jsOrInt d.maxGuests 1
  { id := d.id
    code := d.code
    assignedTo := d.assignedTo
    maxGuests := maxGuests
    usedGuests := usedGuests
    remainingGuests := max 0 (maxGuests - usedGuests)
    isActive := d.isActive }

/-- Decidable equality on `Except`, needed so that concrete runs of the
modelled functions can be settled by `decide`. -/
instance exceptDecEq {ε α : Type} [DecidableEq ε] [DecidableEq α] :
    DecidableEq (Except ε α) := fun x y =>
  match x, y with
  | .ok a, .ok b =>
    if h : a = b then .isTrue (by rw [h]) else .isFalse (by simp [h])
  | .error a, .error b =>
    if h : a = b then .isTrue (by rw [h]) else .isFalse (by simp [h])
  | .ok _, .error _ => .isFalse (by simp)
  | .error _, .ok _ => .isFalse (by simp)

/-- Result of a validation call: the thrown-or-returned outcome plus the
number of Firestore queries issued during the call. -/
structure FetchResult : Type where
  result : Except Err CodeSnapshot
  queries : Nat
  deriving Repr, DecidableEq

/-- Function `fetchCodeData` of src/script.js (lines 1271-1323).  `db` is whether
`FirebaseConfig.getFirestore()` is non-null, `qOk` whether the Firestore
query succeeds.  A rejected query is caught by the catch block; its
message does not contain "codigo", so it is collapsed to
`validationFailed`, while `notFound` and `inactive` (whose messages do
contain "codigo") are re-thrown verbatim. -/
def fetchCodeData (db : Bool) (store : Store) (qOk : Bool) (code : String) :
    FetchResult :=
  if !db then ⟨.error .firebaseNotInit, 0⟩
  else if jsTrim code = "" then ⟨.error .emptyInput, 0⟩
  else
    let normalized := normalizeCode code
    if !qOk then ⟨.error .validationFailed, 1⟩
    else
      match findByCode store.codes normalized with
      | none => ⟨.error .notFound, 1⟩
      | some d =>
        if !d.isActive then ⟨.error .inactive, 1⟩
        else ⟨.ok (mkSnapshot d), 1⟩

/-- Function `validateCode` of src/script.js (lines 1330-1339): fetch, then fail
with `exhausted` when `remainingGuests <= 0`. -/
def validateCode (db : Bool) (store : Store) (qOk : Bool) (code : String) :
    FetchResult :=
  let f := fetchCodeData db store qOk code
  match f.result with
  | .ok d => if d.remainingGuests ≤ 0 then ⟨.error .exhausted, f.queries⟩ else f
  | .error _ => f

/-- Function `validateCodeForAccess` of src/script.js (lines 1347-1349): exactly
`fetchCodeData`, with no exhaustion check. -/
def validateCodeForAccess (db : Bool) (store : Store) (qOk : Bool)
    (code : String) : FetchResult :=
  fetchCodeData db store qOk code

/-- Function `checkExistingRSVP` of src/script.js (lines 1041-1065): throws when
Firebase is not initialised; returns `false` for a blank code; queries
the rsvps collection by exact normalized code; a rejected query is
caught and reported as `false`. -/
def checkExistingRSVP (db : Bool) (store : Store) (qOk : Bool)
    (code : String) : Except Err Bool :=
  if !db then .error .firebaseNotInit
  else if jsTrim code = "" then .ok false
  else if !qOk then .ok false
  else .ok (findRsvpByCode store.rsvps (normalizeCode code)).isSome

/-- Computation `parseInt(formData.guestsCount, 10) || 1` (src/script.js line 1103). -/
def computedGuests (f : FormData) : Int :=
  jsOrInt (jsParseInt f.guestsCount) 1

/-- The rsvp document built by `submitRSVP` (src/script.js 1111-1121),
with the store-assigned id `newId`. -/
def mkRsvpData (cur : CodeSnapshot) (f : FormData) (newId : String) :
    RsvpDoc :=
  { id := newId
    code := cur.code
    codeId := cur.id
    name := jsTrim f.name
    guestsCount := computedGuests f
    email := jsTrim f.email
    phone := jsTrim f.phone
    attendance := if f.attendance = "si" then "Will attend" else "Will not attend"
    allergies := jsTrim f.allergies }

/-- Outcome of a successful `submitRSVP`: the committed store, the (now
cleared) module-level current code, the sessionStorage "rsvpSubmitted"
flag, and the returned record. -/
structure SubmitOutcome : Type where
  store : Store
  current : Option CodeSnapshot
  rsvpSubmitted : Bool
  record : RsvpDoc
  deriving Repr, DecidableEq

/-- Function `submitRSVP` of src/script.js (lines 1072-1162).  `current` is the
module-level `currentInvitationCode`; `checkOk` drives the duplicate
pre-check query; `commitOk` drives the batch commit; `newId` is the id
Firestore assigns to the new rsvp document.

The batch commit is a single atomic unit: it is applied in full on
success, and on rejection the catch block fires with the store
untouched.  The batch `update` on the code document also fails when that
document does not exist, hence the `∃ code doc` conjunct of the commit
condition.  The catch re-throws only errors whose message contains "Ya
has enviado"; a rejected commit never carries that message, so it is
collapsed to `submissionFailed`. -/
def submitRSVP (db : Bool) (store : Store) (current : Option CodeSnapshot)
    (checkOk : Bool) (commitOk : Bool) (newId : String) (f : FormData) :
    Except Err SubmitOutcome :=
  if !db then .error .firebaseNotInit
  else
    match current with
    | none => .error .noActiveCode
    | some cur =>
      if jsTrim f.name = "" then .error .nameRequired
      else if jsTrim f.email = "" then .error .emailRequired
      else if f.attendance = "" then .error .attendanceRequired
      else
        match checkExistingRSVP true store checkOk cur.code with
        | .error e => .error e
        | .ok true => .error .duplicateSubmission
        | .ok false =>
          let guestsCount := computedGuests f
          if guestsCount > cur.remainingGuests then .error .capacityExceeded
          else
            let rsvpData := mkRsvpData cur f newId
            let commitApplies :=
              commitOk &&
                (!(f.attendance = "si") || store.codes.any (fun c => c.id = cur.id))
            if commitApplies then
              .ok
                { store :=
                    { codes :=
                        if f.attendance = "si" then
                          applyIncrement store.codes cur.id guestsCount
                        else store.codes
                      rsvps := store.rsvps ++ [rsvpData] }
                  current := none
                  rsvpSubmitted := true
                  record := rsvpData }
            else .error .submissionFailed

/-- Body of the try block of `deleteRSVP` (src/script.js 1208-1233): load
the record, throw "RSVP no encontrado." when absent, otherwise commit a
batch that deletes the record and, when its attendance is "Will attend"
and its `codeId` is truthy, atomically decrements the owning code's
`usedGuests` by its `guestsCount`. -/
def deleteRSVPBody (store : Store) (getOk : Bool) (commitOk : Bool)
    (rsvpId : String) : Except Err Store :=
  if !getOk then .error .validationFailed
  else
    match store.rsvps.find? (fun r => r.id = rsvpId) with
    | none => .error .notFound
    | some r =>
      let needsDecrement := r.attendance = "Will attend" && !(r.codeId = "")
      let commitApplies :=
        commitOk &&
          (!needsDecrement || store.codes.any (fun c => c.id = r.codeId))
      if commitApplies then
        .ok
          { codes :=
              if needsDecrement then
                applyIncrement store.codes r.codeId (-r.guestsCount)
              else store.codes
            rsvps := store.rsvps.filter (fun r => !(r.id = rsvpId)) }
      else .error .deleteFailed

/-- Function `deleteRSVP` of src/script.js (lines 1201-1239).  Its catch block is
unconditional: EVERY error raised inside the try block — including the
internal "RSVP no encontrado." throw — is replaced by the generic
"Error al eliminar la confirmacion." before reaching the caller. -/
def deleteRSVP (db : Bool) (store : Store) (getOk : Bool) (commitOk : Bool)
    (rsvpId : String) : Except Err Store :=
  if !db then .error .firebaseNotInit
  else
    match deleteRSVPBody store getOk commitOk rsvpId with
    | .ok s => .ok s
    | .error _ => .error .deleteFailed

/-- The `updates` object passed to admin `updateCode`; only the three
allowed fields matter, every other key of the JavaScript object is
filtered out by the `allowedFields` loop.  `maxGuests` arrives as the
raw form string and is parsed with `parseInt(..., 10) || 1`. -/
structure CodeUpdates : Type where
  assignedTo : Option String
  maxGuests : Option String
  isActive : Option Bool
  deriving Repr, DecidableEq

/-- The document mutation applied by `updateCode` (src/js/admin-dashboard.js
131-150): the provided allowed fields, plus `updatedAt` set to the
server timestamp `now` on every update. -/
def applyCodeUpdate (c : CodeDoc) (u : CodeUpdates) (now : Nat) : CodeDoc :=
  { c with
    assignedTo :=
      match u.assignedTo with
      | none => c.assignedTo
      | some s => jsTrim s
    maxGuests :=
      match u.maxGuests with
      | none => c.maxGuests
      | some raw => some (jsOrInt (jsParseInt raw) 1)
    isActive :=
      match u.isActive with
      | none => c.isActive
      | some b => b
    updatedAt := some now }

/-- Function `updateCode` of src/js/admin-dashboard.js (lines 121-157).  `updOk`
drives the Firestore document update, which also fails when no document
with the given id exists. -/
def updateCode (db : Bool) (store : Store) (updOk : Bool) (now : Nat)
    (codeId : String) (u : CodeUpdates) : Except Err Store :=
  if !db then .error .firebaseNotInit
  else if !(u.assignedTo.isSome || u.maxGuests.isSome || u.isActive.isSome) then
    .error .noValidFields
  else if updOk && store.codes.any (fun c => c.id = codeId) then
    .ok
      { codes :=
          store.codes.map (fun c =>
            if c.id = codeId then applyCodeUpdate c u now else c)
        rsvps := store.rsvps }
  else .error .updateFailed

/-! ### Concrete fixtures used by witnesses and counterexamples -/

/-- An active code document with 4 seats, 1 already used. -/
def codeDocA : CodeDoc := ⟨"C1", "ABC", "fam", some 4, some 1, true, none⟩

/-- A store holding only `codeDocA`, with no rsvps. -/
def storeA : Store := ⟨[codeDocA], []⟩

/-- The snapshot `fetchCodeData` builds for `codeDocA`. -/
def snapA : CodeSnapshot := mkSnapshot codeDocA

/-- A valid "Will attend" form for two guests. -/
def formSi : FormData := ⟨" Ana ", "a@b.c", "si", "2", "", ""⟩

/-- A valid form whose guests field parses to the negative number -2. -/
def formNeg : FormData := ⟨"Ana", "a@b.c", "no", "-2", "", ""⟩

/-- A valid "Will attend" form asking for more seats than remain. -/
def formNine : FormData := ⟨"Ana", "a@b.c", "si", "9", "", ""⟩

/-- An rsvp document already recorded for code "ABC". -/
def rsvpA : RsvpDoc := ⟨"R0", "ABC", "C1", "Eva", 1, "e@b.c", "", "Will attend", ""⟩

/-- A store where code "ABC" already has an rsvp on record. -/
def storeDup : Store := ⟨[codeDocA], [rsvpA]⟩

/-- A code document whose stored `maxGuests` is the negative number -3. -/
def codeDocNeg : CodeDoc := ⟨"C2", "NEG", "x", some (-3), some 0, true, none⟩

/-- A store holding only `codeDocNeg`. -/
def storeNeg : Store := ⟨[codeDocNeg], []⟩

/-- A code document with both capacity fields absent. -/
def codeDocDef : CodeDoc := ⟨"C3", "DEF", "y", none, none, true, none⟩

/-- A store holding only `codeDocDef`. -/
def storeDef : Store := ⟨[codeDocDef], []⟩

/-- An active, fully redeemed code document (2 of 2 seats used). -/
def codeDocFull : CodeDoc := ⟨"C4", "FULL", "z", some 2, some 2, true, none⟩

/-- A store holding only `codeDocFull`. -/
def storeFull : Store := ⟨[codeDocFull], []⟩

/-- Document `codeDocA` after a successful 2-guest attending submission. -/
def codeDocB : CodeDoc := ⟨"C1", "ABC", "fam", some 4, some 3, true, none⟩

/-- A recorded attending rsvp for 2 guests under code "ABC". -/
def rsvpAttend : RsvpDoc :=
  ⟨"R1", "ABC", "C1", "Ana", 2, "a@b.c", "", "Will attend", ""⟩

/-- A recorded non-attending rsvp under code "ABC". -/
def rsvpDecline : RsvpDoc :=
  ⟨"R2", "ABC", "C1", "Bea", 1, "b@b.c", "", "Will not attend", ""⟩

/-- A store with one attending and one non-attending rsvp on record. -/
def storeDel : Store := ⟨[codeDocB], [rsvpAttend, rsvpDecline]⟩

/-- The outcome of submitting `formSi` against `storeA` with snapshot
`snapA`: the rsvp record is created and `usedGuests` goes from 1 to 3. -/
def outSi : SubmitOutcome := ⟨⟨[codeDocB], [rsvpAttend]⟩, none, true, rsvpAttend⟩

/-- An admin update touching only `maxGuests`. -/
def updB : CodeUpdates := ⟨none, some "5", none⟩

/-- Store `storeA` after `updateCode "C1" updB` at server timestamp 7. -/
def storeAupd : Store :=
  ⟨[⟨"C1", "ABC", "fam", some 5, some 1, true, some 7⟩], []⟩

/-! ### Claim theorems -/

/-- Unfolding of the Firestore counter increment through the defaulted
read: incrementing treats a missing `usedGuests` as 0. -/
theorem fvIncrement_eq (x : Option Int) (d : Int) :
    fvIncrement x d = some (jsOrInt x 0 + d) := by
  cases x with
  | none => simp [fvIncrement, jsOrInt]
  | some n =>
    by_cases hn : n = 0 <;> simp [fvIncrement, jsOrInt, hn]

/-- Claim C7: validating a blank or whitespace-only code fails with
EmptyInput under both modes and issues zero Firestore queries. -/
theorem blank_code_never_queries (store : Store) (qOk : Bool) (code : String)
    (hblank : jsTrim code = "") :
    validateCode true store qOk code = ⟨.error .emptyInput, 0⟩ ∧
    validateCodeForAccess true store qOk code = ⟨.error .emptyInput, 0⟩ := by
  constructor <;>
    simp [validateCode, validateCodeForAccess, fetchCodeData, hblank]

/-- Witness for C7 at the whitespace-only input "   ". -/
theorem blank_code_never_queries_witness :
    validateCode true storeA true "   " = ⟨.error .emptyInput, 0⟩ ∧
    validateCodeForAccess true storeA true "   " = ⟨.error .emptyInput, 0⟩ :=
  blank_code_never_queries storeA true "   " (by decide)

/-- Counterexample for C5: for a stored document whose `maxGuests` field
holds the negative integer -3, validation succeeds and returns a
snapshot with `remainingGuests = 0` but `maxGuests = -3`, so the
snapshot's remaining capacity is strictly greater than its `maxGuests`,
refuting "always ... ≤ the snapshot's maxGuests" for arbitrary stored
integers. -/
theorem snapshot_remaining_gt_max_counterexample :
    (fetchCodeData true storeNeg true "NEG").result = .ok (mkSnapshot codeDocNeg) ∧
    (mkSnapshot codeDocNeg).remainingGuests = 0 ∧
    (mkSnapshot codeDocNeg).maxGuests = -3 ∧
    (mkSnapshot codeDocNeg).maxGuests < (mkSnapshot codeDocNeg).remainingGuests := by
  refine ⟨by decide, by decide, by decide, by decide⟩

/-- Claim C5 (amended): every snapshot returned by validation satisfies
`remainingGuests = max 0 (maxGuests - usedGuests)` and
`remainingGuests ≥ 0`; the bound `remainingGuests ≤ maxGuests`
additionally needs the defaulted `maxGuests` and `usedGuests` to be
nonnegative (which the data-model invariant `0 ≤ usedGuests`,
`1 ≤ maxGuests` gives), and fails for stores holding negative values. -/
theorem snapshot_remaining_spec (db : Bool) (store : Store) (qOk : Bool)
    (code : String) (snap : CodeSnapshot)
    (h : (fetchCodeData db store qOk code).result = .ok snap) :
    snap.remainingGuests = max 0 (snap.maxGuests - snap.usedGuests) ∧
    0 ≤ snap.remainingGuests ∧
    (0 ≤ snap.maxGuests → 0 ≤ snap.usedGuests →
      snap.remainingGuests ≤ snap.maxGuests) := by
  unfold fetchCodeData at h
  split at h
  · simp at h
  · split at h
    · simp at h
    · split at h
      · simp at h
      · dsimp only at h
        split at h
        · simp at h
        · split at h
          · simp at h
          · simp only [Except.ok.injEq] at h
            subst h
            dsimp only [mkSnapshot]
            refine ⟨rfl, le_max_left 0 _, fun hm hu => max_le hm (by omega)⟩

/-- Witness for C5 (amended) at the concrete store `storeA`. -/
theorem snapshot_remaining_spec_witness :
    snapA.remainingGuests = max 0 (snapA.maxGuests - snapA.usedGuests) ∧
    0 ≤ snapA.remainingGuests ∧
    (0 ≤ snapA.maxGuests → 0 ≤ snapA.usedGuests →
      snapA.remainingGuests ≤ snapA.maxGuests) :=
  snapshot_remaining_spec true storeA true "ABC" snapA (by decide)

/-- Claim C10: the snapshot is built from defaulted capacity fields —
`usedGuests || 0` and `maxGuests || 1` — so a missing or zero
`usedGuests` reads as 0, a missing or zero `maxGuests` reads as 1, and
`remainingGuests` (hence every downstream capacity check) is computed
from the defaulted values, not the raw document. -/
theorem fetchCodeData_capacity_defaults (db : Bool) (store : Store)
    (qOk : Bool) (code : String) (snap : CodeSnapshot) (d : CodeDoc)
    (h : (fetchCodeData db store qOk code).result = .ok snap)
    (hd : findByCode store.codes (normalizeCode code) = some d) :
    (d.usedGuests = none → snap.usedGuests = 0) ∧
    (d.usedGuests = some 0 → snap.usedGuests = 0) ∧
    (∀ n : Int, d.usedGuests = some n → n ≠ 0 → snap.usedGuests = n) ∧
    (d.maxGuests = none → snap.maxGuests = 1) ∧
    (d.maxGuests = some 0 → snap.maxGuests = 1) ∧
    (∀ n : Int, d.maxGuests = some n → n ≠ 0 → snap.maxGuests = n) ∧
    snap.remainingGuests = max 0 (snap.maxGuests - snap.usedGuests) := by
  unfold fetchCodeData at h
  split at h
  · simp at h
  · split at h
    · simp at h
    · split at h
      · simp at h
      · dsimp only at h
        simp only [hd] at h
        split at h
        · simp at h
        · simp only [Except.ok.injEq] at h
          subst h
          dsimp only [mkSnapshot]
          refine ⟨fun hu => by simp [jsOrInt, hu],
                  fun hu => by simp [jsOrInt, hu],
                  fun n hu hn => by simp [jsOrInt, hu, hn],
                  fun hm => by simp [jsOrInt, hm],
                  fun hm => by simp [jsOrInt, hm],
                  fun n hm hn => by simp [jsOrInt, hm, hn],
                  rfl⟩

/-- Witness for C10 at a stored document with both capacity fields
absent: the snapshot reads `usedGuests = 0`, `maxGuests = 1`. -/
theorem fetchCodeData_capacity_defaults_witness :
    (codeDocDef.usedGuests = none → (mkSnapshot codeDocDef).usedGuests = 0) ∧
    (codeDocDef.usedGuests = some 0 → (mkSnapshot codeDocDef).usedGuests = 0) ∧
    (∀ n : Int, codeDocDef.usedGuests = some n → n ≠ 0 →
      (mkSnapshot codeDocDef).usedGuests = n) ∧
    (codeDocDef.maxGuests = none → (mkSnapshot codeDocDef).maxGuests = 1) ∧
    (codeDocDef.maxGuests = some 0 → (mkSnapshot codeDocDef).maxGuests = 1) ∧
    (∀ n : Int, codeDocDef.maxGuests = some n → n ≠ 0 →
      (mkSnapshot codeDocDef).maxGuests = n) ∧
    (mkSnapshot codeDocDef).remainingGuests =
      max 0 ((mkSnapshot codeDocDef).maxGuests - (mkSnapshot codeDocDef).usedGuests) :=
  fetchCodeData_capacity_defaults true storeDef true "DEF"
    (mkSnapshot codeDocDef) codeDocDef (by decide) (by decide)

/-- Claim C4: an active, found code whose snapshot has zero remaining
capacity fails with Exhausted under rsvp mode (`validateCode`) but
succeeds under access mode (`validateCodeForAccess`), which returns the
very same snapshot. -/
theorem exhausted_rsvp_vs_access (store : Store) (code : String)
    (d : CodeDoc) (hne : jsTrim code ≠ "")
    (hd : findByCode store.codes (normalizeCode code) = some d)
    (hact : d.isActive = true)
    (hrem : (mkSnapshot d).remainingGuests = 0) :
    (validateCode true store true code).result = .error .exhausted ∧
    (validateCodeForAccess true store true code).result = .ok (mkSnapshot d) := by
  have hf : fetchCodeData true store true code = ⟨.ok (mkSnapshot d), 1⟩ := by
    unfold fetchCodeData
    simp [hne, hd, hact]
  exact ⟨by simp [validateCode, hf, hrem], by simp [validateCodeForAccess, hf]⟩

/-- Witness for C4 at the fully redeemed code "FULL", entered in
lowercase. -/
theorem exhausted_rsvp_vs_access_witness :
    (validateCode true storeFull true "full").result = .error .exhausted ∧
    (validateCodeForAccess true storeFull true "full").result =
      .ok (mkSnapshot codeDocFull) :=
  exhausted_rsvp_vs_access storeFull "full" codeDocFull (by decide) (by decide)
    (by decide) (by decide)

/-- Counterexample for C8: when the Firestore client is not initialised,
`checkExistingRSVP` throws ("Firebase no esta inicializado.") instead of
returning `false`, refuting "it never throws". -/
theorem checkExistingRSVP_throws_counterexample :
    checkExistingRSVP false storeA true "ABC" = .error .firebaseNotInit := by
  decide

/-- Claim C8 (amended): once the Firestore client is initialised,
`checkExistingRSVP` never throws: it is read-only, returns the Boolean
of an exact normalized-code existence query, and degrades to `false`
when the query is rejected (store unavailable); only a missing Firestore
client makes it throw. -/
theorem checkExistingRSVP_spec (store : Store) (qOk : Bool) (code : String) :
    (∃ b, checkExistingRSVP true store qOk code = .ok b) ∧
    (qOk = false → checkExistingRSVP true store qOk code = .ok false) ∧
    (jsTrim code = "" → checkExistingRSVP true store qOk code = .ok false) ∧
    (qOk = true → jsTrim code ≠ "" →
      checkExistingRSVP true store qOk code =
        .ok (findRsvpByCode store.rsvps (normalizeCode code)).isSome) := by
  unfold checkExistingRSVP
  by_cases hb : jsTrim code = "" <;> by_cases hq : qOk = true <;> simp_all

/-- Witness for C8 (amended): a duplicate is reported `true` when the
query succeeds, and a rejected query degrades to `false`. -/
theorem checkExistingRSVP_spec_witness :
    checkExistingRSVP true storeDup true "abc" = .ok true ∧
    checkExistingRSVP true storeDup false "abc" = .ok false :=
  ⟨((checkExistingRSVP_spec storeDup true "abc").2.2.2 rfl (by decide)).trans
      (by decide),
   (checkExistingRSVP_spec storeDup false "abc").2.1 rfl⟩

/-- Claim C1: every submission accepted by `submitRSVP` commits as one
atomic unit: the rsvp record is created, and the code's `usedGuests` is
incremented by exactly the computed guests count if and only if the
submitted attendance is the form value "si" ("Will attend"); any other
attendance leaves every code document unchanged.  An error outcome
carries no store, so no partial state (record without increment, or
increment without record) is ever observable. -/
theorem submitRSVP_atomic (db : Bool) (store : Store) (cur : CodeSnapshot)
    (checkOk commitOk : Bool) (newId : String) (f : FormData)
    (r : SubmitOutcome)
    (h : submitRSVP db store (some cur) checkOk commitOk newId f = .ok r) :
    r.record = mkRsvpData cur f newId ∧
    r.store.rsvps = store.rsvps ++ [r.record] ∧
    (f.attendance = "si" →
      r.store.codes = applyIncrement store.codes cur.id (computedGuests f)) ∧
    (f.attendance ≠ "si" → r.store.codes = store.codes) ∧
    (f.attendance = "si" → ∀ c ∈ store.codes, c.id = cur.id →
      ({ c with usedGuests := some (jsOrInt c.usedGuests 0 + computedGuests f) }
          : CodeDoc) ∈ r.store.codes) ∧
    r.current = none ∧ r.rsvpSubmitted = true := by
  cases db with
  | false => simp [submitRSVP] at h
  | true =>
    by_cases hn : jsTrim f.name = ""
    · simp [submitRSVP, hn] at h
    by_cases he : jsTrim f.email = ""
    · simp [submitRSVP, hn, he] at h
    by_cases ha : f.attendance = ""
    · simp [submitRSVP, hn, he, ha] at h
    cases hchk : checkExistingRSVP true store checkOk cur.code with
    | error e => simp [submitRSVP, hn, he, ha, hchk] at h
    | ok b =>
      cases b with
      | true => simp [submitRSVP, hn, he, ha, hchk] at h
      | false =>
        by_cases hcap : computedGuests f > cur.remainingGuests
        · simp [submitRSVP, hn, he, ha, hchk, hcap] at h
        by_cases hcom :
            (commitOk &&
              (!(f.attendance = "si") ||
                store.codes.any (fun c => c.id = cur.id))) = true
        · simp only [submitRSVP, hn, he, ha, hchk, hcap, hcom] at h
          rw [if_neg (by simp)] at h
          injection h with h
          subst h
          refine ⟨rfl, rfl, fun hsi => by simp [hsi], fun hsi => by simp [hsi],
                  ?_, rfl, rfl⟩
          intro hsi c hc hcid
          simp only [hsi, if_pos]
          unfold applyIncrement
          refine List.mem_map.mpr ⟨c, hc, ?_⟩
          simp [hcid, fvIncrement_eq]
        · simp [submitRSVP, hn, he, ha, hchk, hcap, hcom] at h

/-- Witness for C1: a concrete accepted "Will attend" submission for two
guests creates the record and raises `usedGuests` from 1 to 3. -/
theorem submitRSVP_atomic_witness :
    outSi.store.rsvps = storeA.rsvps ++ [outSi.record] ∧
    outSi.store.codes = applyIncrement storeA.codes snapA.id (computedGuests formSi) ∧
    outSi.current = none ∧ outSi.rsvpSubmitted = true := by
  have h := submitRSVP_atomic true storeA snapA true true "R1" formSi outSi
    (by decide)
  exact ⟨h.2.1, h.2.2.1 (by decide), h.2.2.2.2.2.1, h.2.2.2.2.2.2⟩

/-- Counterexample for C2: `parseInt(x, 10) || 1` is not
`max(1, parseInt(x))` — a form whose guests field parses to -2 is
accepted with a computed guests count of -2, which is not an integer
≥ 1 (the capacity check passes because -2 does not exceed the remaining
capacity). -/
theorem submitRSVP_negative_guests_counterexample :
    (submitRSVP true storeA (some snapA) true true "R1" formNeg).map
        (fun o => o.record.guestsCount) = .ok (-2) ∧
    (-2 : Int) < 1 := by
  refine ⟨by decide, by decide⟩

/-- Claim C2 (amended): `submitRSVP` computes
`guestsCount = parseInt(formData.guestsCount, 10) || 1`, which equals
`max(1, parsedInt)` whenever the parse is NaN or nonnegative (negative
parses are kept as-is); with the preceding checks passing, it fails with
CapacityExceeded — writing nothing to the store — whenever that
guestsCount exceeds the held snapshot's `remainingGuests`. -/
theorem submitRSVP_guests_and_capacity (store : Store) (cur : CodeSnapshot)
    (checkOk commitOk : Bool) (newId : String) (f : FormData)
    (hn : jsTrim f.name ≠ "") (he : jsTrim f.email ≠ "")
    (ha : f.attendance ≠ "")
    (hchk : checkExistingRSVP true store checkOk cur.code = .ok false) :
    (jsParseInt f.guestsCount = none → computedGuests f = 1) ∧
    (∀ n : Int, jsParseInt f.guestsCount = some n → 0 ≤ n →
      computedGuests f = max 1 n) ∧
    (computedGuests f > cur.remainingGuests →
      submitRSVP true store (some cur) checkOk commitOk newId f =
        .error .capacityExceeded) := by
  refine ⟨fun hp => by simp [computedGuests, jsOrInt, hp],
          fun n hp hn0 => ?_, fun hcap => ?_⟩
  · by_cases h0 : n = 0
    · simp only [computedGuests, jsOrInt, hp, h0, if_pos]
      omega
    · simp only [computedGuests, jsOrInt, hp, h0, if_neg, ite_false]
      omega
  · simp [submitRSVP, hn, he, ha, hchk, hcap]

/-- Witness for C2 (amended): asking for 9 seats with 3 remaining fails
CapacityExceeded, and 9 parses to `max 1 9`. -/
theorem submitRSVP_guests_and_capacity_witness :
    computedGuests formNine = max 1 9 ∧
    submitRSVP true storeA (some snapA) true true "R1" formNine =
      .error .capacityExceeded := by
  have h := submitRSVP_guests_and_capacity storeA snapA true true "R1" formNine
    (by decide) (by decide) (by decide) (by decide)
  exact ⟨h.2.1 9 (by decide) (by decide), h.2.2 (by decide)⟩

/-- Claim C3: (a) when the duplicate pre-check query succeeds and an
rsvp for the held code is already on record, `submitRSVP` fails with
DuplicateSubmission — surfaced verbatim, raised before the commit, so
neither `usedGuests` nor any record changes; (b) a rejected batch commit
(every other persistence failure during the commit) is collapsed by the
catch block to the generic SubmissionFailed. -/
theorem duplicate_surfaced_commit_collapsed :
    (∀ (store : Store) (cur : CodeSnapshot) (commitOk : Bool)
        (newId : String) (f : FormData),
      jsTrim f.name ≠ "" → jsTrim f.email ≠ "" → f.attendance ≠ "" →
      jsTrim cur.code ≠ "" →
      (findRsvpByCode store.rsvps (normalizeCode cur.code)).isSome = true →
      submitRSVP true store (some cur) true commitOk newId f =
        .error .duplicateSubmission) ∧
    (∀ (store : Store) (cur : CodeSnapshot) (checkOk : Bool)
        (newId : String) (f : FormData),
      jsTrim f.name ≠ "" → jsTrim f.email ≠ "" → f.attendance ≠ "" →
      checkExistingRSVP true store checkOk cur.code = .ok false →
      ¬(computedGuests f > cur.remainingGuests) →
      submitRSVP true store (some cur) checkOk false newId f =
        .error .submissionFailed) := by
  constructor
  · intro store cur commitOk newId f hn he ha hne hex
    have hdup : checkExistingRSVP true store true cur.code = .ok true := by
      simp [checkExistingRSVP, hne, hex]
    simp [submitRSVP, hn, he, ha, hdup]
  · intro store cur checkOk newId f hn he ha hchk hcap
    simp [submitRSVP, hn, he, ha, hchk, hcap]

/-- Witness for C3: a second submission for code "ABC" fails
DuplicateSubmission; a rejected commit fails SubmissionFailed. -/
theorem duplicate_surfaced_commit_collapsed_witness :
    submitRSVP true storeDup (some snapA) true true "R1" formSi =
      .error .duplicateSubmission ∧
    submitRSVP true storeA (some snapA) true false "R1" formSi =
      .error .submissionFailed :=
  ⟨duplicate_surfaced_commit_collapsed.1 storeDup snapA true "R1" formSi
      (by decide) (by decide) (by decide) (by decide) (by decide),
   duplicate_surfaced_commit_collapsed.2 storeA snapA true "R1" formSi
      (by decide) (by decide) (by decide) (by decide) (by decide)⟩

/-- Claim C6, evaluated at the failing input: for an id absent from the
rsvps collection, the try body of `deleteRSVP` raises the internal
NotFound ("RSVP no encontrado."), but the function's unconditional catch
replaces it, so the caller observes the generic delete error instead of
NotFound (the store is nevertheless left unchanged).  For existing
records the claimed behavior holds: deleting an attending record for 2
guests atomically removes it and decrements `usedGuests` from 3 to 1;
deleting a non-attending record removes it and leaves every code
document unchanged. -/
theorem deleteRSVP_notfound_swallowed :
    deleteRSVPBody storeDel true true "MISSING" = .error .notFound ∧
    deleteRSVP true storeDel true true "MISSING" = .error .deleteFailed ∧
    deleteRSVP true storeDel true true "R1" =
      .ok ⟨[⟨"C1", "ABC", "fam", some 4, some 1, true, none⟩], [rsvpDecline]⟩ ∧
    deleteRSVP true storeDel true true "R2" =
      .ok ⟨[codeDocB], [rsvpAttend]⟩ := by
  refine ⟨by decide, by decide, by decide, by decide⟩

/-- Counterexample for C9: `updateCode` also writes an `updatedAt`
server timestamp, so a field outside {assignedTo, maxGuests, isActive}
is changed by every update (here from absent to 7), refuting "every
other field of the document ... is left unchanged". -/
theorem updateCode_writes_updatedAt_counterexample :
    codeDocA.updatedAt = none ∧
    updateCode true storeA true 7 "C1" ⟨some "Bob", none, none⟩ =
      .ok ⟨[⟨"C1", "ABC", "Bob", some 4, some 1, true, some 7⟩], []⟩ := by
  refine ⟨rfl, by decide⟩

/-- Claim C9 (amended): a successful admin `updateCode` writes only the
allowed fields `assignedTo`, `maxGuests`, `isActive` — each left
unchanged when not supplied — plus the bookkeeping `updatedAt`
timestamp; `code` and `usedGuests` are never touched, documents with a
different id are untouched, and the rsvps collection is untouched. -/
theorem updateCode_frame (store : Store) (now : Nat) (codeId : String)
    (u : CodeUpdates) (s' : Store)
    (h : updateCode true store true now codeId u = .ok s') :
    s'.rsvps = store.rsvps ∧
    (∀ c ∈ store.codes, c.id ≠ codeId → c ∈ s'.codes) ∧
    (∀ c ∈ store.codes, c.id = codeId →
      ∃ c' ∈ s'.codes, c'.id = c.id ∧ c'.code = c.code ∧
        c'.usedGuests = c.usedGuests ∧
        (u.assignedTo = none → c'.assignedTo = c.assignedTo) ∧
        (u.maxGuests = none → c'.maxGuests = c.maxGuests) ∧
        (u.isActive = none → c'.isActive = c.isActive) ∧
        c'.updatedAt = some now) := by
  unfold updateCode at h
  split at h
  · simp at h
  · split at h
    · simp at h
    · split at h
      · injection h with h
        subst h
        refine ⟨rfl, ?_, ?_⟩
        · intro c hc hne
          exact List.mem_map.mpr ⟨c, hc, by simp [hne]⟩
        · intro c hc hcid
          refine ⟨applyCodeUpdate c u now,
                  List.mem_map.mpr ⟨c, hc, by simp [hcid]⟩, ?_⟩
          unfold applyCodeUpdate
          exact ⟨rfl, rfl, rfl, fun hA => by simp [hA], fun hM => by simp [hM],
                 fun hI => by simp [hI], rfl⟩
      · simp at h

/-- Witness for C9 (amended): updating only `maxGuests` of code "C1"
leaves `code`, `usedGuests`, `assignedTo` and `isActive` unchanged and
stamps `updatedAt`. -/
theorem updateCode_frame_witness :
    storeAupd.rsvps = storeA.rsvps ∧
    ∃ c' ∈ storeAupd.codes, c'.id = codeDocA.id ∧ c'.code = codeDocA.code ∧
      c'.usedGuests = codeDocA.usedGuests ∧
      (updB.assignedTo = none → c'.assignedTo = codeDocA.assignedTo) ∧
      (updB.maxGuests = none → c'.maxGuests = codeDocA.maxGuests) ∧
      (updB.isActive = none → c'.isActive = codeDocA.isActive) ∧
      c'.updatedAt = some 7 := by
  have h := updateCode_frame storeA 7 "C1" updB storeAupd (by decide)
  exact ⟨h.1, h.2.2 codeDocA (by decide) rfl⟩
